import Mathlib

/-!
Verification development for the nba-all-time-draft-lineup scoring engine.

The TypeScript sources `src/lib/scoring.ts` and `src/lib/data.ts` are embedded
shallowly over `ℚ`:

* JavaScript numbers are modelled as rationals; every arithmetic operation used
  by the code (additions, multiplications, divisions, `Math.min`/`Math.max`,
  `Math.abs`, `Math.floor`-based rounding) is exact on the rationals.
* The two irrational primitives the code uses, `Math.sqrt` and
  `Math.pow(x, 1.15)` (the contribution soft-cap with
  `CONTRIBUTION_NORMALIZATION.gamma = 1.15`), are abstracted as an oracle
  `MathFns` threaded through the definitions; theorems quantify over the
  oracle and concrete evaluations only ever consult it at arguments where its
  value is forced (such as `sqrt 0 = 0`).
* The module-level tables of `data.ts` (`globalMetricDistributions`,
  `statsByTeamPlayer`, `slotsByTeamPlayer`), which are built once at process
  start, are modelled as an explicit immutable snapshot `DataEnv` passed to the
  functions that read them.
-/

namespace AllTimeDraft

/-- JavaScript `Math.round(value * 10) / 10` (`roundToOneDecimal` in
`scoring.ts` and `data.ts`); `Math.round` rounds half away from zero towards
positive infinity, i.e. `⌊x + 1/2⌋`. -/
def roundToOneDecimal (value : ℚ) : ℚ :=
  (⌊value * 10 + 1 / 2⌋ : ℚ) / 10

/-- `clamp(value, min, max) = Math.max(min, Math.min(max, value))` from both
`scoring.ts` and `data.ts`. -/
def clamp (value lo hi : ℚ) : ℚ :=
  max lo (min hi value)

/-- The five lineup slots (`LINEUP_SLOTS` in `types.ts`). -/
inductive LineupSlot where
  | PG
  | SG
  | SF
  | PF
  | C
deriving DecidableEq

/-- `LINEUP_SLOTS = ['PG', 'SG', 'SF', 'PF', 'C']`. -/
def LINEUP_SLOTS : List LineupSlot :=
  [LineupSlot.PG, LineupSlot.SG, LineupSlot.SF, LineupSlot.PF, LineupSlot.C]

/-- The four per-player metrics (the keys of `PlayerStats`). -/
inductive Metric where
  | bpm
  | ws48
  | vorp
  | epm
deriving DecidableEq

/-- `PlayerStats` from `types.ts`. -/
structure PlayerStats where
  bpm : ℚ
  ws48 : ℚ
  vorp : ℚ
  epm : ℚ
deriving DecidableEq

/-- `LineupPick` from `types.ts`; the optional `isPenalty` field is modelled as
a `Bool` (absent = `false`). -/
structure LineupPick where
  slot : LineupSlot
  playerName : String
  teamAbbr : String
  teamName : String
  isPenalty : Bool
deriving DecidableEq

/-- `StatsLookup` from `types.ts`. -/
structure StatsLookup where
  key : String
  season : String
  stats : PlayerStats
  usedFallback : Bool
  seasonsUsed : List String
  projectedFromSeasons : ℚ
deriving DecidableEq

/-- `PlayerScoreBreakdown` from `types.ts`. -/
structure PlayerScoreBreakdown where
  pick : LineupPick
  stats : PlayerStats
  usedFallback : Bool
  normalizedMetrics : PlayerStats
  contribution : ℚ
deriving DecidableEq

/-- `ChemistryBreakdown` from `types.ts`. -/
structure ChemistryBreakdown where
  roleCoverage : ℚ
  complementarity : ℚ
  usageBalance : ℚ
  twoWayBalance : ℚ
  culture : ℚ
  chemistryScore : ℚ
  multiplier : ℚ
deriving DecidableEq

/-- The synthetic per-player `RoleProfile` of `scoring.ts`. -/
structure RoleProfile where
  playmaking : ℚ
  spacing : ℚ
  rimPressure : ℚ
  perimeterDefense : ℚ
  rimProtection : ℚ
  rebounding : ℚ
  ballDominance : ℚ
deriving DecidableEq

/-- Oracle for the two irrational JavaScript primitives used by `scoring.ts`:
`sqrt` models `Math.sqrt`, and `powGamma` models
`x ↦ Math.pow(x, CONTRIBUTION_NORMALIZATION.gamma)` with `gamma = 1.15`.
Theorems quantify over this oracle. -/
structure MathFns where
  sqrt : ℚ → ℚ
  powGamma : ℚ → ℚ

/-- A concrete oracle used to instantiate witnesses and counterexamples; at
every point where those concrete computations consult the oracle the argument
is `0`, and `Math.sqrt 0 = 0 = Math.pow 0 1.15`, so the instantiation agrees
with the real primitives there. -/
def mathFnsZero : MathFns where
  sqrt := fun _ => 0
  powGamma := fun _ => 0

/-- Immutable snapshot of the module-level state of `data.ts`:
`globalMetricDistributions` (sorted population values per metric, built by
`initializeGlobalMetricCalibration`), `statsByTeamPlayer` and
`slotsByTeamPlayer` (maps keyed by the `` `${teamAbbr}|${playerName}` ``
string). -/
structure DataEnv where
  dists : Metric → List ℚ
  statsByTeamPlayer : String → Option PlayerStats
  slotsByTeamPlayer : String → Option (List LineupSlot)

/-- `makeTeamPlayerKey` from `data.ts`. -/
def makeTeamPlayerKey (teamAbbr playerName : String) : String :=
  teamAbbr ++ "|" ++ playerName

/-- `upperBound`'s while loop from `data.ts`: binary search for the first
index whose element is `> value`; an out-of-range read
(`sortedValues[mid] ?? Number.NEGATIVE_INFINITY`) behaves as `-∞ ≤ value`,
i.e. `true`.  `mid = (low + high) / 2` is the same Nat division as the
JavaScript `Math.floor((low + high) / 2)`. -/
def upperBoundLoop (sortedValues : List ℚ) (value : ℚ) (low high : Nat) : Nat :=
  if low < high then
    if (match sortedValues.get? ((low + high) / 2) with
        | some x => decide (x ≤ value)
        | none => true) then
      upperBoundLoop sortedValues value ((low + high) / 2 + 1) high
    else
      upperBoundLoop sortedValues value low ((low + high) / 2)
  else
    low
termination_by high - low
decreasing_by
  · omega
  · omega

/-- `upperBound` from `data.ts`. -/
def upperBound (sortedValues : List ℚ) (value : ℚ) : Nat :=
  upperBoundLoop sortedValues value 0 sortedValues.length

/-- `lowerBound`'s while loop from `data.ts`: binary search for the first
index whose element is `≥ value`; an out-of-range read
(`sortedValues[mid] ?? Number.POSITIVE_INFINITY`) behaves as `+∞ < value`,
i.e. `false`. -/
def lowerBoundLoop (sortedValues : List ℚ) (value : ℚ) (low high : Nat) : Nat :=
  if low < high then
    if (match sortedValues.get? ((low + high) / 2) with
        | some x => decide (x < value)
        | none => false) then
      lowerBoundLoop sortedValues value ((low + high) / 2 + 1) high
    else
      lowerBoundLoop sortedValues value low ((low + high) / 2)
  else
    low
termination_by high - low
decreasing_by
  · omega
  · omega

/-- `lowerBound` from `data.ts`. -/
def lowerBound (sortedValues : List ℚ) (value : ℚ) : Nat :=
  lowerBoundLoop sortedValues value 0 sortedValues.length

/-- `normalizePlayerMetricGlobally` from `data.ts`, reading the stored
distribution for `metric` from the snapshot. -/
def normalizePlayerMetricGlobally (env : DataEnv) (metric : Metric) (value : ℚ) : ℚ :=
  let distribution := env.dists metric
  if distribution.length = 0 then 50
  else if distribution.length = 1 then 50
  else
    let lower := lowerBound distribution value
    let upper := upperBound distribution value
    if upper ≤ 0 then 0
    else
      let clampedLower := clamp (lower : ℚ) 0 ((distribution.length : ℚ) - 1)
      let clampedUpper := clamp ((upper : ℚ) - 1) 0 ((distribution.length : ℚ) - 1)
      let averageRank := (clampedLower + clampedUpper) / 2
      averageRank / ((distribution.length : ℚ) - 1) * 100

/-- `fallbackByPrimarySlot` from `data.ts`. -/
def fallbackByPrimarySlot (slot : LineupSlot) : PlayerStats :=
  if slot = LineupSlot.PG then { bpm := 55, ws48 := 52, vorp := 54, epm := 53 }
  else if slot = LineupSlot.SG then { bpm := 54, ws48 := 50, vorp := 53, epm := 52 }
  else if slot = LineupSlot.SF then { bpm := 55, ws48 := 52, vorp := 55, epm := 54 }
  else if slot = LineupSlot.PF then { bpm := 56, ws48 := 54, vorp := 56, epm := 55 }
  else { bpm := 57, ws48 := 55, vorp := 57, epm := 56 }

/-- `getPlayerEligibleSlots` from `data.ts`: the stored slot list, defaulting
to all of `LINEUP_SLOTS` for an unknown `(team, player)` pair. -/
def getPlayerEligibleSlots (env : DataEnv) (teamAbbr playerName : String) : List LineupSlot :=
  (env.slotsByTeamPlayer (makeTeamPlayerKey teamAbbr playerName)).getD LINEUP_SLOTS

/-- `projectedBaselineStats` from `data.ts`: `slots[0] ?? 'SF'` picks the
primary eligible slot. -/
def projectedBaselineStats (env : DataEnv) (teamAbbr playerName : String) : PlayerStats :=
  fallbackByPrimarySlot ((getPlayerEligibleSlots env teamAbbr playerName).headD LineupSlot.SF)

/-- `lookupPlayerStats` from `data.ts`. -/
def lookupPlayerStats (env : DataEnv) (teamAbbr playerName season : String) : StatsLookup :=
  let key := teamAbbr ++ "|" ++ playerName ++ "|" ++ season
  let teamPlayerKey := makeTeamPlayerKey teamAbbr playerName
  match env.statsByTeamPlayer teamPlayerKey with
  | none =>
      { key := key
        season := season
        stats := projectedBaselineStats env teamAbbr playerName
        usedFallback := true
        seasonsUsed := ["FRANCHISE_BASELINE"]
        projectedFromSeasons := 0 }
  | some stats =>
      { key := key
        season := season
        stats := stats
        usedFallback := false
        seasonsUsed := ["ALL_TIME_FRANCHISE"]
        projectedFromSeasons := 1 }

/-- `METRIC_WEIGHTS` from `scoring.ts`. -/
structure MetricWeights where
  bpm : ℚ
  ws48 : ℚ
  vorp : ℚ
  epm : ℚ

/-- `METRIC_WEIGHTS = { bpm: 0.3, ws48: 0.25, vorp: 0.25, epm: 0.2 }`. -/
def METRIC_WEIGHTS : MetricWeights where
  bpm := 0.3
  ws48 := 0.25
  vorp := 0.25
  epm := 0.2

/-- `CONTRIBUTION_NORMALIZATION` from `scoring.ts`; its `gamma = 1.15` lives
inside the `MathFns.powGamma` oracle. -/
structure ContributionNormalization where
  ceiling : ℚ

/-- `CONTRIBUTION_NORMALIZATION = { ceiling: 95, gamma: 1.15 }`. -/
def CONTRIBUTION_NORMALIZATION : ContributionNormalization where
  ceiling := 95

/-- `CHEMISTRY_WEIGHTS` from `scoring.ts`. -/
structure ChemistryWeights where
  roleCoverage : ℚ
  complementarity : ℚ
  usageBalance : ℚ
  twoWayBalance : ℚ
  culture : ℚ

/-- `CHEMISTRY_WEIGHTS = { roleCoverage: 0.3, complementarity: 0.25,
usageBalance: 0.2, twoWayBalance: 0.15, culture: 0.1 }`. -/
def CHEMISTRY_WEIGHTS : ChemistryWeights where
  roleCoverage := 0.3
  complementarity := 0.25
  usageBalance := 0.2
  twoWayBalance := 0.15
  culture := 0.1

/-- `normalizeMetric` from `scoring.ts`:
`clamp(pow(clamp(globalPercentile, 0, 100) / 100, gamma) * ceiling, 0, ceiling)`. -/
def normalizeMetric (mf : MathFns) (env : DataEnv) (metric : Metric) (value : ℚ) : ℚ :=
  let percentile := clamp (normalizePlayerMetricGlobally env metric value) 0 100
  let scaled := mf.powGamma (percentile / 100)
  clamp (scaled * CONTRIBUTION_NORMALIZATION.ceiling) 0 CONTRIBUTION_NORMALIZATION.ceiling

/-- `average` from `scoring.ts` (0 on the empty list). -/
def average (values : List ℚ) : ℚ :=
  if values.length = 0 then 0
  else values.foldl (fun sum value => sum + value) 0 / (values.length : ℚ)

/-- `standardDeviation` from `scoring.ts` (0 on the empty list), with
`Math.sqrt` taken from the oracle. -/
def standardDeviation (mf : MathFns) (values : List ℚ) : ℚ :=
  if values.length = 0 then 0
  else
    let mean := average values
    let variance :=
      values.foldl (fun sum value => sum + (value - mean) ^ 2) 0 / (values.length : ℚ)
    mf.sqrt variance

/-- `slotBonus` from `scoring.ts`: `bonuses[slot] ?? 0`. -/
def slotBonus (slot : LineupSlot) (bonuses : LineupSlot → Option ℚ) : ℚ :=
  (bonuses slot).getD 0

/-- `ZERO_STATS` from `scoring.ts`. -/
def ZERO_STATS : PlayerStats where
  bpm := 0
  ws48 := 0
  vorp := 0
  epm := 0

/-- `scorePlayer` from `scoring.ts`, returning the normalized metrics and the
rounded weighted contribution. -/
def scorePlayer (mf : MathFns) (env : DataEnv) (stats : PlayerStats) :
    PlayerStats × ℚ :=
  let normalizedMetrics : PlayerStats :=
    { bpm := normalizeMetric mf env Metric.bpm stats.bpm
      ws48 := normalizeMetric mf env Metric.ws48 stats.ws48
      vorp := normalizeMetric mf env Metric.vorp stats.vorp
      epm := normalizeMetric mf env Metric.epm stats.epm }
  let contribution :=
    normalizedMetrics.bpm * METRIC_WEIGHTS.bpm +
      normalizedMetrics.ws48 * METRIC_WEIGHTS.ws48 +
      normalizedMetrics.vorp * METRIC_WEIGHTS.vorp +
      normalizedMetrics.epm * METRIC_WEIGHTS.epm
  (normalizedMetrics, roundToOneDecimal contribution)

/-- `buildRoleProfile` from `scoring.ts`: all-zero for a penalty pick,
otherwise metric blends plus the fixed slot-archetype bonus tables, each
clamped to `[0, 100]`. -/
def buildRoleProfile (slot : LineupSlot) (metrics : PlayerStats) (isPenalty : Bool) :
    RoleProfile :=
  if isPenalty then
    { playmaking := 0, spacing := 0, rimPressure := 0, perimeterDefense := 0
      rimProtection := 0, rebounding := 0, ballDominance := 0 }
  else
    { playmaking :=
        clamp (metrics.vorp * (0.5 : ℚ) + metrics.bpm * (0.35 : ℚ) +
          slotBonus slot (fun s =>
            match s with
            | LineupSlot.PG => some 15
            | LineupSlot.SG => some 8
            | LineupSlot.SF => some 3
            | _ => none)) 0 100
      spacing :=
        clamp (metrics.epm * (0.45 : ℚ) + metrics.bpm * (0.3 : ℚ) +
          slotBonus slot (fun s =>
            match s with
            | LineupSlot.SG => some 10
            | LineupSlot.SF => some 8
            | LineupSlot.PG => some 5
            | _ => none)) 0 100
      rimPressure :=
        clamp (metrics.vorp * (0.45 : ℚ) + metrics.bpm * (0.2 : ℚ) +
          slotBonus slot (fun s =>
            match s with
            | LineupSlot.C => some 14
            | LineupSlot.PF => some 10
            | LineupSlot.SF => some 5
            | _ => none)) 0 100
      perimeterDefense :=
        clamp (metrics.ws48 * (0.45 : ℚ) + metrics.epm * (0.25 : ℚ) +
          slotBonus slot (fun s =>
            match s with
            | LineupSlot.SF => some 12
            | LineupSlot.SG => some 8
            | LineupSlot.PG => some 5
            | LineupSlot.PF => some 4
            | _ => none)) 0 100
      rimProtection :=
        clamp (metrics.ws48 * (0.5 : ℚ) + metrics.epm * (0.2 : ℚ) +
          slotBonus slot (fun s =>
            match s with
            | LineupSlot.C => some 16
            | LineupSlot.PF => some 9
            | LineupSlot.SF => some 2
            | _ => none)) 0 100
      rebounding :=
        clamp (metrics.ws48 * (0.45 : ℚ) + metrics.vorp * (0.3 : ℚ) +
          slotBonus slot (fun s =>
            match s with
            | LineupSlot.C => some 13
            | LineupSlot.PF => some 9
            | LineupSlot.SF => some 4
            | _ => none)) 0 100
      ballDominance :=
        clamp (metrics.bpm * (0.5 : ℚ) + metrics.vorp * (0.35 : ℚ) +
          slotBonus slot (fun s =>
            match s with
            | LineupSlot.PG => some 12
            | LineupSlot.SG => some 8
            | LineupSlot.SF => some 4
            | _ => none)) 0 100 }

/-- JavaScript `Math.max(...values)`; only ever applied to non-empty lists in
`computeChemistry` (the empty lineup short-circuits earlier). -/
def listMax (values : List ℚ) : ℚ :=
  values.foldr max 0

/-- The role profiles `computeChemistry` derives from the scored picks. -/
def chemistryProfiles (playerScores : List PlayerScoreBreakdown) : List RoleProfile :=
  playerScores.map fun player =>
    buildRoleProfile player.pick.slot player.normalizedMetrics player.pick.isPenalty

/-- The per-pair complementarity score of `computeChemistry`:
`clamp(52 + distance * 0.55 - dominancePenalty, 0, 100)`. -/
def pairScore (a b : RoleProfile) : ℚ :=
  let distance := average
    [ |a.playmaking - b.playmaking|
      , |a.spacing - b.spacing|
      , |a.rimPressure - b.rimPressure|
      , |a.perimeterDefense - b.perimeterDefense|
      , |a.rimProtection - b.rimProtection|
      , |a.rebounding - b.rebounding| ]
  let dominancePenalty := max 0 (((a.ballDominance + b.ballDominance) / 2 - 72) * 1.1)
  clamp (52 + distance * 0.55 - dominancePenalty) 0 100

/-- The double loop of `computeChemistry` collecting `pairScore` over all
index pairs `i < j`, in the source's iteration order. -/
def pairScoresOf : List RoleProfile → List ℚ
  | [] => []
  | a :: rest => rest.map (pairScore a) ++ pairScoresOf rest

/-- The unrounded `roleCoverage` sub-score of `computeChemistry`. -/
def roleCoverageVal (profiles : List RoleProfile) : ℚ :=
  clamp (average
    [ listMax (profiles.map RoleProfile.playmaking)
      , listMax (profiles.map RoleProfile.spacing)
      , listMax (profiles.map RoleProfile.perimeterDefense)
      , listMax (profiles.map RoleProfile.rimProtection)
      , listMax (profiles.map RoleProfile.rebounding) ]) 0 100

/-- The unrounded `complementarity` sub-score of `computeChemistry`. -/
def complementarityVal (profiles : List RoleProfile) : ℚ :=
  clamp (average (pairScoresOf profiles)) 0 100

/-- The unrounded `usageBalance` sub-score of `computeChemistry`. -/
def usageBalanceVal (mf : MathFns) (profiles : List RoleProfile) : ℚ :=
  let ballDominanceValues := profiles.map RoleProfile.ballDominance
  let ballDominanceAvg := average ballDominanceValues
  let ballDominanceStd := standardDeviation mf ballDominanceValues
  let highUsageCount := (ballDominanceValues.filter (fun value => 80 < value)).length
  clamp (100 - |ballDominanceAvg - 66| * 1.2 - ballDominanceStd * 1.35 -
    (highUsageCount : ℚ) * 3.5) 0 100

/-- The unrounded `twoWayBalance` sub-score of `computeChemistry`. -/
def twoWayBalanceVal (profiles : List RoleProfile) : ℚ :=
  let offenseValues := profiles.map fun profile =>
    average [profile.playmaking, profile.spacing, profile.rimPressure]
  let defenseValues := profiles.map fun profile =>
    average [profile.perimeterDefense, profile.rimProtection, profile.rebounding]
  let offense := average offenseValues
  let defense := average defenseValues
  clamp (100 - |offense - defense| * 1.25) 0 100

/-- The unrounded `culture` sub-score of `computeChemistry`. -/
def cultureVal (mf : MathFns) (playerScores : List PlayerScoreBreakdown) : ℚ :=
  let teamAccoladeValues := playerScores.map fun player => player.normalizedMetrics.ws48
  let teamAccoladeAvg := average teamAccoladeValues
  let teamAccoladeStd := standardDeviation mf teamAccoladeValues
  let highCultureCount := (teamAccoladeValues.filter (fun value => 75 < value)).length
  clamp (teamAccoladeAvg - teamAccoladeStd * 0.5 + (highCultureCount : ℚ) * 2.5) 0 100

/-- The unrounded weighted `chemistryScore` of `computeChemistry`. -/
def chemistryScoreVal (mf : MathFns) (playerScores : List PlayerScoreBreakdown) : ℚ :=
  let profiles := chemistryProfiles playerScores
  clamp
    (roleCoverageVal profiles * CHEMISTRY_WEIGHTS.roleCoverage +
      complementarityVal profiles * CHEMISTRY_WEIGHTS.complementarity +
      usageBalanceVal mf profiles * CHEMISTRY_WEIGHTS.usageBalance +
      twoWayBalanceVal profiles * CHEMISTRY_WEIGHTS.twoWayBalance +
      cultureVal mf playerScores * CHEMISTRY_WEIGHTS.culture) 0 100

/-- The unrounded multiplier of `computeChemistry`:
`clamp(1 + chemistryScore / 100, 1, 2)`. -/
def multiplierVal (mf : MathFns) (playerScores : List PlayerScoreBreakdown) : ℚ :=
  clamp (1 + chemistryScoreVal mf playerScores / 100) 1 2

/-- `computeChemistry` from `scoring.ts`: the all-zero breakdown with
multiplier 1 for an empty lineup, otherwise the five sub-scores, the weighted
overall score and the clamped multiplier, each rounded to one decimal. -/
def computeChemistry (mf : MathFns) (playerScores : List PlayerScoreBreakdown) :
    ChemistryBreakdown :=
  if playerScores.length = 0 then
    { roleCoverage := 0, complementarity := 0, usageBalance := 0, twoWayBalance := 0
      culture := 0, chemistryScore := 0, multiplier := 1 }
  else
    let profiles := chemistryProfiles playerScores
    { roleCoverage := roundToOneDecimal (roleCoverageVal profiles)
      complementarity := roundToOneDecimal (complementarityVal profiles)
      usageBalance := roundToOneDecimal (usageBalanceVal mf profiles)
      twoWayBalance := roundToOneDecimal (twoWayBalanceVal profiles)
      culture := roundToOneDecimal (cultureVal mf playerScores)
      chemistryScore := roundToOneDecimal (chemistryScoreVal mf playerScores)
      multiplier := roundToOneDecimal (multiplierVal mf playerScores) }

/-- The per-pick arrow function inside `scoreLineup`: a penalty pick is zeroed
without consulting the stats tables, otherwise the pick's stats are looked up
and scored. -/
def scoreOnePick (mf : MathFns) (env : DataEnv) (season : String) (pick : LineupPick) :
    PlayerScoreBreakdown :=
  if pick.isPenalty then
    { pick := pick
      stats := ZERO_STATS
      usedFallback := false
      normalizedMetrics := ZERO_STATS
      contribution := 0 }
  else
    let statsLookup := lookupPlayerStats env pick.teamAbbr pick.playerName season
    let scoredPlayer := scorePlayer mf env statsLookup.stats
    { pick := pick
      stats := statsLookup.stats
      usedFallback := statsLookup.usedFallback
      normalizedMetrics := scoredPlayer.1
      contribution := scoredPlayer.2 }

/-- The record returned by `scoreLineup`. -/
structure LineupResult where
  baseTeamScore : ℚ
  teamScore : ℚ
  chemistry : ChemistryBreakdown
  playerScores : List PlayerScoreBreakdown
  usedFallbackStats : Bool
deriving DecidableEq

/-- `scoreLineup` from `scoring.ts`. -/
def scoreLineup (mf : MathFns) (env : DataEnv) (picks : List LineupPick) (season : String) :
    LineupResult :=
  if picks.length = 0 then
    { baseTeamScore := 0
      teamScore := 0
      chemistry :=
        { roleCoverage := 0, complementarity := 0, usageBalance := 0, twoWayBalance := 0
          culture := 0, chemistryScore := 0, multiplier := 1 }
      playerScores := []
      usedFallbackStats := false }
  else
    let playerScores := picks.map (scoreOnePick mf env season)
    let totalContribution := playerScores.foldl (fun sum player => sum + player.contribution) 0
    let baseTeamScore := roundToOneDecimal (totalContribution / (playerScores.length : ℚ))
    let chemistry := computeChemistry mf playerScores
    let teamScore := roundToOneDecimal (baseTeamScore * chemistry.multiplier)
    { baseTeamScore := baseTeamScore
      teamScore := teamScore
      chemistry := chemistry
      playerScores := playerScores
      usedFallbackStats := playerScores.any PlayerScoreBreakdown.usedFallback }

/-- `FranchiseGreatnessBreakdown` from `types.ts`; the source field
`tenureRatio` is spelled `tenureShareOfCareer` here. -/
structure FranchiseGreatnessBreakdown where
  personalAccolades : ℚ
  teamAccolades : ℚ
  boxStats : ℚ
  advancedStats : ℚ
  franchiseScore : ℚ
  yearsWithTeam : ℚ
  careerYears : ℚ
  tenureShareOfCareer : ℚ
deriving DecidableEq

/-- `tierForRank` from `data.ts`. -/
def tierForRank (rankIndex : ℕ) : ℕ :=
  if rankIndex ≤ 2 then 1
  else if rankIndex ≤ 6 then 2
  else if rankIndex ≤ 10 then 3
  else if rankIndex ≤ 13 then 4
  else 5

/-- The `tierBoostByTier` record of `computeGreatness` (`data.ts`); the
lookup `tierBoostByTier[tier] ?? 0` is the `Option.getD` at the use site. -/
def tierBoostByTier (tier : ℕ) : Option ℚ :=
  if tier = 1 then some 10
  else if tier = 2 then some 5
  else if tier = 3 then some 0
  else if tier = 4 then some (-4)
  else if tier = 5 then some (-8)
  else none

/-- `computeGreatness` from `data.ts` (the rank-tier formula under `src/`):
four clamped category scores from the rank base, tier boost, tenure terms and
championships, combined with weights 0.3/0.25/0.25/0.2 and damped by a
multiplicative tenure multiplier `0.58 + tenureRatio * 0.42`.  The local
`tenureRatio` of the source is spelled `tenureShare`. -/
def computeGreatness (rankIndex : ℕ) (yearsWithTeam careerYears championships : ℚ) :
    FranchiseGreatnessBreakdown :=
  let tier := tierForRank rankIndex
  let rankBase : ℚ := 100 - (rankIndex : ℚ) * 4.2
  let tierBoost := (tierBoostByTier tier).getD 0
  let tenureShare := clamp (yearsWithTeam / max 1 careerYears) 0.08 1
  let tenureAdjustment := (tenureShare - 0.65) * 30
  let personalAccolades :=
    clamp (rankBase + tierBoost + yearsWithTeam * (0.55 : ℚ) + tenureAdjustment * (0.6 : ℚ)) 18 99
  let teamAccolades :=
    clamp (rankBase + tierBoost * (0.6 : ℚ) + championships * 6 + yearsWithTeam * (0.75 : ℚ) +
      tenureAdjustment * (0.7 : ℚ)) 15 99
  let boxStats :=
    clamp (rankBase + tierBoost * (0.35 : ℚ) + yearsWithTeam * (0.9 : ℚ) +
      tenureAdjustment * (0.45 : ℚ)) 18 99
  let advancedStats :=
    clamp (rankBase + tierBoost * (0.9 : ℚ) + yearsWithTeam * (0.65 : ℚ) +
      tenureAdjustment * (0.8 : ℚ)) 18 99
  let rawScore :=
    personalAccolades * (0.3 : ℚ) + teamAccolades * (0.25 : ℚ) + boxStats * (0.25 : ℚ) +
      advancedStats * (0.2 : ℚ)
  let tenureMultiplier := (0.58 : ℚ) + tenureShare * (0.42 : ℚ)
  let franchiseScore := clamp (rawScore * tenureMultiplier) 12 99
  { personalAccolades := roundToOneDecimal personalAccolades
    teamAccolades := roundToOneDecimal teamAccolades
    boxStats := roundToOneDecimal boxStats
    advancedStats := roundToOneDecimal advancedStats
    franchiseScore := roundToOneDecimal franchiseScore
    yearsWithTeam := yearsWithTeam
    careerYears := careerYears
    tenureShareOfCareer := roundToOneDecimal tenureShare }

/-- Numeric value of a list of decimal digit characters. -/
def digitsToNat (cs : List Char) : ℕ :=
  cs.foldl (fun n c => 10 * n + (c.toNat - 48)) 0

/-- `parseYearsWithTeam` from `data.ts`: a string matching
`/^(\d{4})-(\d{4})$/` yields `max(1, end - start + 1)`, anything else (or a
reversed range) yields 1.  The `Number.isFinite` guards of the source cannot
fire on a four-digit parse. -/
def parseYearsWithTeam (yearRange : String) : ℚ :=
  let cs := yearRange.toList
  if cs.length = 9 ∧ (cs.take 4).all Char.isDigit ∧ cs.get? 4 = some '-' ∧
      (cs.drop 5).all Char.isDigit then
    let startYear := (digitsToNat (cs.take 4) : ℚ)
    let endYear := (digitsToNat (cs.drop 5) : ℚ)
    if endYear < startYear then 1
    else max 1 (endYear - startYear + 1)
  else 1

/-- `Team` from `types.ts`. -/
structure Team where
  abbr : String
  name : String

/-- One entry of `ALL_TIME_TEAM_SEED` as consumed by `initializeAllTimeData`
(`data.ts`); `careerYears` and `championships` are optional there
(`seedPlayer.careerYears ?? yearsWithTeam`, `seedPlayer.championships ?? 0`). -/
structure SeedPlayer where
  name : String
  years : String
  positions : List LineupSlot
  careerYears : Option ℚ
  championships : Option ℚ

/-- `RosterPlayer` from `types.ts`. -/
structure RosterPlayer where
  name : String
  yearsWithTeam : String
  eligibleSlots : List LineupSlot
deriving DecidableEq

/-- `FranchiseRosterPlayer` from `data.ts` (`RosterPlayer` plus the greatness
breakdown). -/
structure FranchiseRosterPlayer where
  name : String
  yearsWithTeam : String
  eligibleSlots : List LineupSlot
  greatness : FranchiseGreatnessBreakdown
deriving DecidableEq

/-- The per-seed-player normalization step inside `initializeAllTimeData`
(`data.ts`): parse tenure, default career years and championships, compute
greatness at the seed's rank index, and default an empty position list to all
of `LINEUP_SLOTS`. -/
def normalizedSeedPlayer (seedPlayer : SeedPlayer) (rankIndex : ℕ) : FranchiseRosterPlayer :=
  let yearsWithTeam := parseYearsWithTeam seedPlayer.years
  let careerYears := max (seedPlayer.careerYears.getD yearsWithTeam) yearsWithTeam
  let championships := max 0 (seedPlayer.championships.getD 0)
  { name := seedPlayer.name
    yearsWithTeam := seedPlayer.years
    eligibleSlots :=
      if 0 < seedPlayer.positions.length then seedPlayer.positions else LINEUP_SLOTS
    greatness := computeGreatness rankIndex yearsWithTeam careerYears championships }

/-- The per-franchise roster built by `initializeAllTimeData` (`data.ts`):
normalize every seed entry at its rank index, sort by descending
`franchiseScore` (the JavaScript comparator `(a, b) => b.score - a.score`) and
keep the top 15. -/
def teamRoster (seedPlayers : List SeedPlayer) : List FranchiseRosterPlayer :=
  let normalizedPlayers :=
    seedPlayers.mapIdx fun rankIndex seedPlayer => normalizedSeedPlayer seedPlayer rankIndex
  (normalizedPlayers.mergeSort fun a b =>
    decide (b.greatness.franchiseScore ≤ a.greatness.franchiseScore)).take 15

/-- The inputs of `initializeAllTimeData`: the team list (`teams.json`) and
the seed map (`ALL_TIME_TEAM_SEED[abbr] ?? []`).  The concrete data files are
generated by `scripts/sync-all-time-data.ts` and are not part of the embedded
sources, so the snapshot is kept abstract. -/
structure SeedEnv where
  teams : List Team
  seed : String → List SeedPlayer

/-- The `rosterByTeam` map of `data.ts` after `initializeAllTimeData`: the
roster is populated exactly for the franchises in the team list
(`rosterByTeam.get(teamAbbr) ?? []`). -/
def rosterByTeamOf (se : SeedEnv) (teamAbbr : String) : List FranchiseRosterPlayer :=
  if se.teams.any (fun team => team.abbr == teamAbbr) then teamRoster (se.seed teamAbbr)
  else []

/-- `getRosterByTeam` from `data.ts`. -/
def getRosterByTeam (se : SeedEnv) (teamAbbr : String) : List RosterPlayer :=
  (rosterByTeamOf se teamAbbr).map fun player =>
    { name := player.name
      yearsWithTeam := player.yearsWithTeam
      eligibleSlots := player.eligibleSlots }

/-- Modelled from the spec: "Percentile of value V = midpoint between the
count of population values strictly less than V and the count ≤ V, divided by
(population size − 1), scaled to [0,100]" (spec 4.2 / claim C3), written
exactly as those words say, for comparison with the code's
`normalizePlayerMetricGlobally`. -/
def specMidpointPercentile (value : ℚ) (population : List ℚ) : ℚ :=
  (((population.countP fun x => decide (x < value)) : ℚ) +
      ((population.countP fun x => decide (x ≤ value)) : ℚ)) / 2 /
    ((population.length : ℚ) - 1) * 100

/-- Closed form of the code's percentile: for populations of size 0 or 1 the
neutral 50; otherwise the midpoint between the count of values strictly below
`value` (clamped to at most size − 1) and one less than the count of values
`≤ value` (clamped to [0, size − 1]), divided by size − 1 and scaled to
[0, 100]. -/
def midrankPercentile (value : ℚ) (population : List ℚ) : ℚ :=
  if population.length = 0 ∨ population.length = 1 then 50
  else
    (clamp ((population.countP fun x => decide (x < value)) : ℚ) 0
        ((population.length : ℚ) - 1) +
      clamp (((population.countP fun x => decide (x ≤ value)) : ℚ) - 1) 0
        ((population.length : ℚ) - 1)) / 2 /
      ((population.length : ℚ) - 1) * 100

/-- A penalty (shot-clock violation) pick for a given slot, used in concrete
witnesses and counterexamples. -/
def penaltyPickAt (slot : LineupSlot) : LineupPick :=
  { slot := slot
    playerName := "Shot Clock Violation"
    teamAbbr := "ATL"
    teamName := "Atlanta Hawks"
    isPenalty := true }

/-- A full lineup of five penalty picks, one per slot: the lineup produced by
letting the shot clock expire on every turn. -/
def penaltyLineup : List LineupPick :=
  LINEUP_SLOTS.map penaltyPickAt

/-- The scored breakdowns of `penaltyLineup` exactly as `scoreLineup` builds
them for penalty picks. -/
def penaltyLineupScores : List PlayerScoreBreakdown :=
  penaltyLineup.map fun pick =>
    { pick := pick
      stats := ZERO_STATS
      usedFallback := false
      normalizedMetrics := ZERO_STATS
      contribution := 0 }

/-- An empty data snapshot (no rosters, no calibration population). -/
def emptyDataEnv : DataEnv where
  dists := fun _ => []
  statsByTeamPlayer := fun _ => none
  slotsByTeamPlayer := fun _ => none

/-- A two-sample calibration snapshot whose every metric population is the
sorted list `[0, 2]`. -/
def twoSampleDataEnv : DataEnv where
  dists := fun _ => [0, 2]
  statsByTeamPlayer := fun _ => none
  slotsByTeamPlayer := fun _ => none

/-- A one-team seed snapshot with fifteen identical seed entries, for the
roster witnesses. -/
def fifteenSeedEnv : SeedEnv where
  teams := [{ abbr := "ATL", name := "Atlanta Hawks" }]
  seed := fun _ =>
    List.replicate 15
      { name := "Seed Player"
        years := "1990-1999"
        positions := [LineupSlot.PG]
        careerYears := none
        championships := none }

/-! ### Helper lemmas -/

theorem foldl_add_contribution (ps : List PlayerScoreBreakdown) (a : ℚ) :
    ps.foldl (fun sum player => sum + player.contribution) a =
      a + (ps.map PlayerScoreBreakdown.contribution).sum := by
  induction ps generalizing a with
  | nil => simp
  | cons p t ih => simp [ih, add_assoc]

theorem scoreOnePick_pick (mf : MathFns) (env : DataEnv) (season : String)
    (pick : LineupPick) : (scoreOnePick mf env season pick).pick = pick := by
  cases hp : pick.isPenalty <;> simp [scoreOnePick, hp]

/-! ### C1: base and final team score of a non-empty lineup -/

/-- C1: for every non-empty list of picks, `scoreLineup` returns
`baseTeamScore` equal to the mean of the per-pick contribution values rounded
to one decimal place, and `teamScore` equal to `baseTeamScore` times the
chemistry multiplier, rounded to one decimal place. -/
theorem scoreLineup_base_and_team_score (mf : MathFns) (env : DataEnv)
    (picks : List LineupPick) (season : String) (hne : picks ≠ []) :
    (scoreLineup mf env picks season).baseTeamScore =
      roundToOneDecimal
        (((scoreLineup mf env picks season).playerScores.map
            PlayerScoreBreakdown.contribution).sum /
          ((scoreLineup mf env picks season).playerScores.length : ℚ)) ∧
    (scoreLineup mf env picks season).teamScore =
      roundToOneDecimal
        ((scoreLineup mf env picks season).baseTeamScore *
          (scoreLineup mf env picks season).chemistry.multiplier) := by
  have hlen : ¬ picks.length = 0 := by simpa [List.length_eq_zero] using hne
  constructor
  · simp [scoreLineup, hlen, hne, foldl_add_contribution]
  · simp [scoreLineup, hlen, hne]

/-- Witness for C1 at the concrete all-penalty lineup. -/
theorem scoreLineup_base_and_team_score_witness :
    (scoreLineup mathFnsZero emptyDataEnv penaltyLineup "ALL_TIME").baseTeamScore =
      roundToOneDecimal
        (((scoreLineup mathFnsZero emptyDataEnv penaltyLineup "ALL_TIME").playerScores.map
            PlayerScoreBreakdown.contribution).sum /
          ((scoreLineup mathFnsZero emptyDataEnv penaltyLineup
              "ALL_TIME").playerScores.length : ℚ)) ∧
    (scoreLineup mathFnsZero emptyDataEnv penaltyLineup "ALL_TIME").teamScore =
      roundToOneDecimal
        ((scoreLineup mathFnsZero emptyDataEnv penaltyLineup "ALL_TIME").baseTeamScore *
          (scoreLineup mathFnsZero emptyDataEnv penaltyLineup
            "ALL_TIME").chemistry.multiplier) :=
  scoreLineup_base_and_team_score mathFnsZero emptyDataEnv penaltyLineup "ALL_TIME"
    (by decide)

/-! ### C10: one breakdown per pick, in order, with the pick unchanged -/

/-- C10: `scoreLineup` returns exactly one `PlayerScoreBreakdown` per input
pick, in input order, and each breakdown's `pick` field is the corresponding
input pick unchanged (mapping each breakdown to its `pick` recovers the input
list). -/
theorem scoreLineup_picks_preserved (mf : MathFns) (env : DataEnv)
    (picks : List LineupPick) (season : String) :
    (scoreLineup mf env picks season).playerScores.map PlayerScoreBreakdown.pick = picks ∧
    (scoreLineup mf env picks season).playerScores.length = picks.length := by
  by_cases hlen : picks.length = 0
  · have hnil : picks = [] := List.length_eq_zero.mp hlen
    subst hnil
    simp [scoreLineup]
  · have hne : picks ≠ [] := fun h => hlen (by simp [h])
    constructor
    · simp only [scoreLineup, if_neg hlen, List.map_map]
      have hcomp : PlayerScoreBreakdown.pick ∘ scoreOnePick mf env season = id :=
        funext fun pick => scoreOnePick_pick mf env season pick
      rw [hcomp, List.map_id]
    · simp [scoreLineup, hlen, hne]

/-! ### C4: penalty picks are fully zeroed -/

/-- C4: every pick with `isPenalty = true` gets contribution 0, all-zero
normalized metrics and raw stats, and `usedFallback = false` in `scoreLineup`;
its scoring is independent of the data snapshot, the math oracle and the
season (calibration lookup is bypassed entirely); and `buildRoleProfile`
assigns every penalty input the all-zero role profile. -/
theorem penalty_picks_zeroed :
    (∀ (mf : MathFns) (env : DataEnv) (picks : List LineupPick) (season : String)
        (breakdown : PlayerScoreBreakdown),
        breakdown ∈ (scoreLineup mf env picks season).playerScores →
        breakdown.pick.isPenalty = true →
        breakdown =
          { pick := breakdown.pick, stats := ZERO_STATS, usedFallback := false,
            normalizedMetrics := ZERO_STATS, contribution := 0 }) ∧
    (∀ (mf mf2 : MathFns) (env env2 : DataEnv) (season season2 : String)
        (pick : LineupPick), pick.isPenalty = true →
        scoreOnePick mf env season pick = scoreOnePick mf2 env2 season2 pick) ∧
    (∀ (slot : LineupSlot) (metrics : PlayerStats),
        buildRoleProfile slot metrics true =
          { playmaking := 0, spacing := 0, rimPressure := 0, perimeterDefense := 0,
            rimProtection := 0, rebounding := 0, ballDominance := 0 }) := by
  refine ⟨?_, ?_, ?_⟩
  · intro mf env picks season breakdown hmem hpen
    by_cases hlen : picks.length = 0
    · have hnil : picks = [] := List.length_eq_zero.mp hlen
      subst hnil
      simp [scoreLineup] at hmem
    · simp only [scoreLineup, if_neg hlen] at hmem
      obtain ⟨pick, hpick, rfl⟩ := List.mem_map.mp hmem
      rw [scoreOnePick_pick] at hpen
      simp [scoreOnePick, hpen]
  · intro mf mf2 env env2 season season2 pick hpen
    simp [scoreOnePick, hpen]
  · intro slot metrics
    rfl

/-- Witness for C4 on a concrete penalty pick inside a concrete lineup. -/
theorem penalty_picks_zeroed_witness :
    scoreOnePick mathFnsZero emptyDataEnv "ALL_TIME" (penaltyPickAt LineupSlot.PG) =
      { pick := (scoreOnePick mathFnsZero emptyDataEnv "ALL_TIME"
          (penaltyPickAt LineupSlot.PG)).pick,
        stats := ZERO_STATS, usedFallback := false, normalizedMetrics := ZERO_STATS,
        contribution := 0 } :=
  penalty_picks_zeroed.1 mathFnsZero emptyDataEnv [penaltyPickAt LineupSlot.PG] "ALL_TIME"
    (scoreOnePick mathFnsZero emptyDataEnv "ALL_TIME" (penaltyPickAt LineupSlot.PG))
    (by decide) (by decide)

/-! ### C8: missing players degrade to a positive baseline, not an error -/

/-- C8: for every `(team, player)` pair missing from the roster snapshot,
`lookupPlayerStats` returns `usedFallback = true` and the baseline stats keyed
by the player's primary eligible slot, all four of whose metric values are
strictly positive. -/
theorem lookup_missing_uses_positive_baseline (env : DataEnv)
    (teamAbbr playerName season : String)
    (hmiss : env.statsByTeamPlayer (makeTeamPlayerKey teamAbbr playerName) = none) :
    (lookupPlayerStats env teamAbbr playerName season).usedFallback = true ∧
    (lookupPlayerStats env teamAbbr playerName season).stats =
      fallbackByPrimarySlot
        ((getPlayerEligibleSlots env teamAbbr playerName).headD LineupSlot.SF) ∧
    0 < (lookupPlayerStats env teamAbbr playerName season).stats.bpm ∧
    0 < (lookupPlayerStats env teamAbbr playerName season).stats.ws48 ∧
    0 < (lookupPlayerStats env teamAbbr playerName season).stats.vorp ∧
    0 < (lookupPlayerStats env teamAbbr playerName season).stats.epm := by
  have hpos : ∀ slot : LineupSlot, 0 < (fallbackByPrimarySlot slot).bpm ∧
      0 < (fallbackByPrimarySlot slot).ws48 ∧ 0 < (fallbackByPrimarySlot slot).vorp ∧
      0 < (fallbackByPrimarySlot slot).epm := by
    intro slot
    cases slot <;> refine ⟨?_, ?_, ?_, ?_⟩ <;> decide
  have hstats : (lookupPlayerStats env teamAbbr playerName season).stats =
      fallbackByPrimarySlot
        ((getPlayerEligibleSlots env teamAbbr playerName).headD LineupSlot.SF) := by
    simp [lookupPlayerStats, hmiss, projectedBaselineStats]
  refine ⟨by simp [lookupPlayerStats, hmiss], hstats, ?_, ?_, ?_, ?_⟩ <;> rw [hstats]
  · exact (hpos _).1
  · exact (hpos _).2.1
  · exact (hpos _).2.2.1
  · exact (hpos _).2.2.2

/-- Witness for C8 at a concrete missing player. -/
theorem lookup_missing_uses_positive_baseline_witness :
    (lookupPlayerStats emptyDataEnv "ATL" "Nonexistent Player" "ALL_TIME").usedFallback =
      true ∧
    (lookupPlayerStats emptyDataEnv "ATL" "Nonexistent Player" "ALL_TIME").stats =
      fallbackByPrimarySlot
        ((getPlayerEligibleSlots emptyDataEnv "ATL" "Nonexistent Player").headD
          LineupSlot.SF) ∧
    0 < (lookupPlayerStats emptyDataEnv "ATL" "Nonexistent Player" "ALL_TIME").stats.bpm ∧
    0 < (lookupPlayerStats emptyDataEnv "ATL" "Nonexistent Player" "ALL_TIME").stats.ws48 ∧
    0 < (lookupPlayerStats emptyDataEnv "ATL" "Nonexistent Player" "ALL_TIME").stats.vorp ∧
    0 < (lookupPlayerStats emptyDataEnv "ATL" "Nonexistent Player" "ALL_TIME").stats.epm :=
  lookup_missing_uses_positive_baseline emptyDataEnv "ATL" "Nonexistent Player" "ALL_TIME"
    rfl

theorem lo_le_clamp (value lo hi : ℚ) : lo ≤ clamp value lo hi :=
  le_max_left _ _

theorem clamp_le_hi (value lo hi : ℚ) (h : lo ≤ hi) : clamp value lo hi ≤ hi :=
  max_le h (min_le_left _ _)

theorem clamp_mono_value (lo hi : ℚ) {a b : ℚ} (h : a ≤ b) :
    clamp a lo hi ≤ clamp b lo hi :=
  max_le_max le_rfl (min_le_min le_rfl h)

theorem roundToOneDecimal_mono {a b : ℚ} (h : a ≤ b) :
    roundToOneDecimal a ≤ roundToOneDecimal b := by
  unfold roundToOneDecimal
  have hfloor : (⌊a * 10 + 1 / 2⌋ : ℤ) ≤ ⌊b * 10 + 1 / 2⌋ :=
    Int.floor_mono (by linarith)
  have hcast : ((⌊a * 10 + 1 / 2⌋ : ℤ) : ℚ) ≤ ((⌊b * 10 + 1 / 2⌋ : ℤ) : ℚ) :=
    Int.cast_le.mpr hfloor
  linarith

theorem roundToOneDecimal_one : roundToOneDecimal 1 = 1 := by
  norm_num [roundToOneDecimal]

theorem roundToOneDecimal_two : roundToOneDecimal 2 = 2 := by
  norm_num [roundToOneDecimal]

/-- Concrete evaluation of the chemistry engine on the all-penalty lineup:
all-zero role profiles give sub-scores 0, 52, 20.8, 100, 0, overall score
32.16 (returned as 32.2) and multiplier 1.3216 (returned as 1.3). -/
theorem computeChemistry_penalty_eval :
    computeChemistry mathFnsZero penaltyLineupScores =
      { roleCoverage := 0, complementarity := 52, usageBalance := 104 / 5,
        twoWayBalance := 100, culture := 0, chemistryScore := 161 / 5,
        multiplier := 13 / 10 } := by
  norm_num [computeChemistry, chemistryProfiles, penaltyLineupScores, penaltyLineup,
    penaltyPickAt, LINEUP_SLOTS, buildRoleProfile, roleCoverageVal, complementarityVal,
    usageBalanceVal, twoWayBalanceVal, cultureVal, chemistryScoreVal, multiplierVal,
    pairScoresOf, pairScore, average, standardDeviation, listMax, mathFnsZero, clamp,
    slotBonus, roundToOneDecimal, CHEMISTRY_WEIGHTS, ZERO_STATS]

/-! ### C2: multiplier versus chemistry score, corrected for rounding -/

/-- Counterexample to C2 as stated: on the all-penalty lineup the returned
(rounded) `multiplier` is 1.3 while `clamp(1 + chemistryScore/100, 1, 2)`
computed from the returned (rounded) `chemistryScore` 32.2 is 1.322, for any
square-root model that sends 0 to 0 (the only `Math.sqrt` application this
input performs, and `Math.sqrt 0 = 0`). -/
theorem computeChemistry_multiplier_claim_cex :
    ¬ (∀ mf : MathFns, mf.sqrt 0 = 0 →
        ∀ playerScores : List PlayerScoreBreakdown, playerScores ≠ [] →
          (computeChemistry mf playerScores).multiplier =
            clamp (1 + (computeChemistry mf playerScores).chemistryScore / 100) 1 2) := by
  intro h
  have hx := h mathFnsZero rfl penaltyLineupScores
    (by simp [penaltyLineupScores, penaltyLineup, LINEUP_SLOTS])
  rw [computeChemistry_penalty_eval] at hx
  norm_num [clamp] at hx

/-- C2 (amended): the returned `multiplier` is
`clamp(1 + chemistryScore/100, 1.0, 2.0)` computed from the pre-rounding
chemistry score and then rounded to one decimal place (the returned
`chemistryScore` is that same pre-rounding value rounded to one decimal), and
the bounds `1.0 ≤ multiplier ≤ 2.0` hold for the returned multiplier. -/
theorem computeChemistry_multiplier_clamped (mf : MathFns)
    (playerScores : List PlayerScoreBreakdown) (hne : playerScores ≠ []) :
    (computeChemistry mf playerScores).multiplier =
      roundToOneDecimal (clamp (1 + chemistryScoreVal mf playerScores / 100) 1 2) ∧
    (computeChemistry mf playerScores).chemistryScore =
      roundToOneDecimal (chemistryScoreVal mf playerScores) ∧
    1 ≤ (computeChemistry mf playerScores).multiplier ∧
    (computeChemistry mf playerScores).multiplier ≤ 2 := by
  have hlen : ¬ playerScores.length = 0 := by simpa [List.length_eq_zero] using hne
  have hmul : (computeChemistry mf playerScores).multiplier =
      roundToOneDecimal (clamp (1 + chemistryScoreVal mf playerScores / 100) 1 2) := by
    simp [computeChemistry, hlen, hne, multiplierVal]
  refine ⟨hmul, by simp [computeChemistry, hlen, hne], ?_, ?_⟩
  · rw [hmul]
    calc (1 : ℚ) = roundToOneDecimal 1 := roundToOneDecimal_one.symm
      _ ≤ roundToOneDecimal (clamp (1 + chemistryScoreVal mf playerScores / 100) 1 2) :=
        roundToOneDecimal_mono (lo_le_clamp _ _ _)
  · rw [hmul]
    calc roundToOneDecimal (clamp (1 + chemistryScoreVal mf playerScores / 100) 1 2)
        ≤ roundToOneDecimal 2 := roundToOneDecimal_mono (clamp_le_hi _ _ _ (by norm_num))
      _ = 2 := roundToOneDecimal_two

/-- Witness for the amended C2 at the concrete all-penalty lineup. -/
theorem computeChemistry_multiplier_clamped_witness :
    (computeChemistry mathFnsZero penaltyLineupScores).multiplier =
      roundToOneDecimal
        (clamp (1 + chemistryScoreVal mathFnsZero penaltyLineupScores / 100) 1 2) ∧
    (computeChemistry mathFnsZero penaltyLineupScores).chemistryScore =
      roundToOneDecimal (chemistryScoreVal mathFnsZero penaltyLineupScores) ∧
    1 ≤ (computeChemistry mathFnsZero penaltyLineupScores).multiplier ∧
    (computeChemistry mathFnsZero penaltyLineupScores).multiplier ≤ 2 :=
  computeChemistry_multiplier_clamped mathFnsZero penaltyLineupScores (by decide)

/-! ### C5: the overall chemistry score, corrected for rounding -/

/-- Counterexample to C5 as stated: on the all-penalty lineup the returned
sub-scores are 0, 52, 20.8, 100, 0, whose weighted sum is 32.16, but the
returned `chemistryScore` is the rounded 32.2; again any square-root model
with `sqrt 0 = 0` reproduces the code's arithmetic on this input. -/
theorem computeChemistry_weighted_sum_cex :
    ¬ (∀ mf : MathFns, mf.sqrt 0 = 0 →
        ∀ playerScores : List PlayerScoreBreakdown, playerScores ≠ [] →
          (computeChemistry mf playerScores).chemistryScore =
            (computeChemistry mf playerScores).roleCoverage * (0.3 : ℚ) +
              (computeChemistry mf playerScores).complementarity * (0.25 : ℚ) +
              (computeChemistry mf playerScores).usageBalance * (0.2 : ℚ) +
              (computeChemistry mf playerScores).twoWayBalance * (0.15 : ℚ) +
              (computeChemistry mf playerScores).culture * (0.1 : ℚ)) := by
  intro h
  have hx := h mathFnsZero rfl penaltyLineupScores
    (by simp [penaltyLineupScores, penaltyLineup, LINEUP_SLOTS])
  rw [computeChemistry_penalty_eval] at hx
  norm_num at hx

/-- C5 (amended): the returned `chemistryScore` is the weighted sum
`roleCoverage*0.30 + complementarity*0.25 + usageBalance*0.20 +
twoWayBalance*0.15 + culture*0.10` of the five pre-rounding sub-scores,
clamped to [0, 100] and rounded to one decimal place; each returned sub-score
is the corresponding pre-rounding value rounded to one decimal place. -/
theorem computeChemistry_weighted_sum (mf : MathFns)
    (playerScores : List PlayerScoreBreakdown) (hne : playerScores ≠ []) :
    (computeChemistry mf playerScores).chemistryScore =
      roundToOneDecimal (clamp
        (roleCoverageVal (chemistryProfiles playerScores) * (0.3 : ℚ) +
          complementarityVal (chemistryProfiles playerScores) * (0.25 : ℚ) +
          usageBalanceVal mf (chemistryProfiles playerScores) * (0.2 : ℚ) +
          twoWayBalanceVal (chemistryProfiles playerScores) * (0.15 : ℚ) +
          cultureVal mf playerScores * (0.1 : ℚ)) 0 100) ∧
    (computeChemistry mf playerScores).roleCoverage =
      roundToOneDecimal (roleCoverageVal (chemistryProfiles playerScores)) ∧
    (computeChemistry mf playerScores).complementarity =
      roundToOneDecimal (complementarityVal (chemistryProfiles playerScores)) ∧
    (computeChemistry mf playerScores).usageBalance =
      roundToOneDecimal (usageBalanceVal mf (chemistryProfiles playerScores)) ∧
    (computeChemistry mf playerScores).twoWayBalance =
      roundToOneDecimal (twoWayBalanceVal (chemistryProfiles playerScores)) ∧
    (computeChemistry mf playerScores).culture =
      roundToOneDecimal (cultureVal mf playerScores) := by
  have hlen : ¬ playerScores.length = 0 := by simpa [List.length_eq_zero] using hne
  refine ⟨?_, ?_, ?_, ?_, ?_, ?_⟩ <;>
    simp [computeChemistry, hlen, hne, chemistryScoreVal, CHEMISTRY_WEIGHTS]

/-- Witness for the amended C5 at the concrete all-penalty lineup. -/
theorem computeChemistry_weighted_sum_witness :
    (computeChemistry mathFnsZero penaltyLineupScores).chemistryScore =
      roundToOneDecimal (clamp
        (roleCoverageVal (chemistryProfiles penaltyLineupScores) * (0.3 : ℚ) +
          complementarityVal (chemistryProfiles penaltyLineupScores) * (0.25 : ℚ) +
          usageBalanceVal mathFnsZero (chemistryProfiles penaltyLineupScores) * (0.2 : ℚ) +
          twoWayBalanceVal (chemistryProfiles penaltyLineupScores) * (0.15 : ℚ) +
          cultureVal mathFnsZero penaltyLineupScores * (0.1 : ℚ)) 0 100) ∧
    (computeChemistry mathFnsZero penaltyLineupScores).roleCoverage =
      roundToOneDecimal (roleCoverageVal (chemistryProfiles penaltyLineupScores)) ∧
    (computeChemistry mathFnsZero penaltyLineupScores).complementarity =
      roundToOneDecimal (complementarityVal (chemistryProfiles penaltyLineupScores)) ∧
    (computeChemistry mathFnsZero penaltyLineupScores).usageBalance =
      roundToOneDecimal (usageBalanceVal mathFnsZero (chemistryProfiles penaltyLineupScores)) ∧
    (computeChemistry mathFnsZero penaltyLineupScores).twoWayBalance =
      roundToOneDecimal (twoWayBalanceVal (chemistryProfiles penaltyLineupScores)) ∧
    (computeChemistry mathFnsZero penaltyLineupScores).culture =
      roundToOneDecimal (cultureVal mathFnsZero penaltyLineupScores) :=
  computeChemistry_weighted_sum mathFnsZero penaltyLineupScores (by decide)

/-! ### C6: tenure monotonicity of the derived franchise score -/

/-- Counterexample to the strict part of C6: at rank index 20 with 10 career
years and no championships, cutting `yearsWithFranchise` from 2 to 1 strictly
lowers the tenure ratio (0.1 < 0.2) yet leaves the derived franchise score
unchanged (both runs are pinned at the clamp floor 12), so the score is not
strictly smaller. -/
theorem computeGreatness_strict_mono_cex :
    (computeGreatness 20 1 10 0).tenureShareOfCareer <
      (computeGreatness 20 2 10 0).tenureShareOfCareer ∧
    (computeGreatness 20 1 10 0).franchiseScore =
      (computeGreatness 20 2 10 0).franchiseScore := by
  norm_num [computeGreatness, tierForRank, tierBoostByTier, clamp, roundToOneDecimal]

theorem greatness_core_mono (B T ch : ℚ) {y1 y2 r1 r2 : ℚ}
    (hy : y1 ≤ y2) (hr : r1 ≤ r2) (h08 : (0.08 : ℚ) ≤ r1) :
    (clamp (B + T + y1 * 0.55 + (r1 - 0.65) * 30 * 0.6) 18 99 * 0.3 +
        clamp (B + T * 0.6 + ch * 6 + y1 * 0.75 + (r1 - 0.65) * 30 * 0.7) 15 99 * 0.25 +
        clamp (B + T * 0.35 + y1 * 0.9 + (r1 - 0.65) * 30 * 0.45) 18 99 * 0.25 +
        clamp (B + T * 0.9 + y1 * 0.65 + (r1 - 0.65) * 30 * 0.8) 18 99 * 0.2) *
      (0.58 + r1 * 0.42) ≤
    (clamp (B + T + y2 * 0.55 + (r2 - 0.65) * 30 * 0.6) 18 99 * 0.3 +
        clamp (B + T * 0.6 + ch * 6 + y2 * 0.75 + (r2 - 0.65) * 30 * 0.7) 15 99 * 0.25 +
        clamp (B + T * 0.35 + y2 * 0.9 + (r2 - 0.65) * 30 * 0.45) 18 99 * 0.25 +
        clamp (B + T * 0.9 + y2 * 0.65 + (r2 - 0.65) * 30 * 0.8) 18 99 * 0.2) *
      (0.58 + r2 * 0.42) := by
  have h1 := clamp_mono_value (18 : ℚ) 99
    (show B + T + y1 * 0.55 + (r1 - 0.65) * 30 * 0.6 ≤
        B + T + y2 * 0.55 + (r2 - 0.65) * 30 * 0.6 by linarith)
  have h2 := clamp_mono_value (15 : ℚ) 99
    (show B + T * 0.6 + ch * 6 + y1 * 0.75 + (r1 - 0.65) * 30 * 0.7 ≤
        B + T * 0.6 + ch * 6 + y2 * 0.75 + (r2 - 0.65) * 30 * 0.7 by linarith)
  have h3 := clamp_mono_value (18 : ℚ) 99
    (show B + T * 0.35 + y1 * 0.9 + (r1 - 0.65) * 30 * 0.45 ≤
        B + T * 0.35 + y2 * 0.9 + (r2 - 0.65) * 30 * 0.45 by linarith)
  have h4 := clamp_mono_value (18 : ℚ) 99
    (show B + T * 0.9 + y1 * 0.65 + (r1 - 0.65) * 30 * 0.8 ≤
        B + T * 0.9 + y2 * 0.65 + (r2 - 0.65) * 30 * 0.8 by linarith)
  have lo1 := lo_le_clamp (B + T + y2 * 0.55 + (r2 - 0.65) * 30 * 0.6) (18 : ℚ) 99
  have lo2 := lo_le_clamp (B + T * 0.6 + ch * 6 + y2 * 0.75 + (r2 - 0.65) * 30 * 0.7) (15 : ℚ) 99
  have lo3 := lo_le_clamp (B + T * 0.35 + y2 * 0.9 + (r2 - 0.65) * 30 * 0.45) (18 : ℚ) 99
  have lo4 := lo_le_clamp (B + T * 0.9 + y2 * 0.65 + (r2 - 0.65) * 30 * 0.8) (18 : ℚ) 99
  exact mul_le_mul (by linarith) (by linarith) (by linarith) (by linarith)

/-- C6 (amended): holding rank index, career years and championships fixed,
decreasing `yearsWithFranchise` never increases the derived franchise score
(weak monotonicity); the strict decrease claimed by the spec can fail when the
clamps bind, as `computeGreatness_strict_mono_cex` shows. -/
theorem computeGreatness_franchiseScore_mono (rankIndex : ℕ)
    (careerYears championships : ℚ) {y1 y2 : ℚ} (h : y1 ≤ y2) :
    (computeGreatness rankIndex y1 careerYears championships).franchiseScore ≤
      (computeGreatness rankIndex y2 careerYears championships).franchiseScore := by
  have hden : (0 : ℚ) < max 1 careerYears := lt_of_lt_of_le one_pos (le_max_left _ _)
  have hr : clamp (y1 / max 1 careerYears) 0.08 1 ≤ clamp (y2 / max 1 careerYears) 0.08 1 :=
    clamp_mono_value _ _ ((div_le_div_iff_of_pos_right hden).mpr h)
  have h08 : (0.08 : ℚ) ≤ clamp (y1 / max 1 careerYears) 0.08 1 := lo_le_clamp _ _ _
  simp only [computeGreatness]
  apply roundToOneDecimal_mono
  apply clamp_mono_value
  exact greatness_core_mono _ _ _ h hr h08

/-- Witness for the amended C6 at a concrete pair of tenures. -/
theorem computeGreatness_franchiseScore_mono_witness :
    (computeGreatness 0 2 10 1).franchiseScore ≤
      (computeGreatness 0 3 10 1).franchiseScore :=
  computeGreatness_franchiseScore_mono 0 10 1 (by norm_num)

/-! ### C3 and C9: the percentile lookup and its monotonicity -/

theorem sorted_countP_get (p : ℚ → Bool)
    (hp : ∀ x y : ℚ, x ≤ y → p y = true → p x = true) (l : List ℚ) :
    l.Sorted (· ≤ ·) → ∀ (i : ℕ) (h : i < l.length),
      (p (l.get ⟨i, h⟩) = true ↔ i < l.countP p) := by
  induction l with
  | nil => intro _ i h; exact absurd h (by simp)
  | cons a t ih =>
    intro hs i h
    rw [List.sorted_cons] at hs
    obtain ⟨ha, hst⟩ := hs
    have hzero : p a = false → List.countP p (a :: t) = 0 := by
      intro hpa
      refine List.countP_eq_zero.mpr ?_
      intro x hx
      rcases List.mem_cons.mp hx with rfl | hxt
      · simp [hpa]
      · intro hpx
        have := hp a x (ha x hxt) hpx
        simp [hpa] at this
    cases i with
    | zero =>
      simp only [List.get]
      constructor
      · intro hpa
        have : List.countP p (a :: t) = List.countP p t + 1 := by
          rw [List.countP_cons]; simp [hpa]
        omega
      · intro hpos
        by_contra hpa
        have hpa' : p a = false := by
          cases hv : p a
          · rfl
          · exact absurd hv hpa
        have := hzero hpa'
        omega
    | succ j =>
      have hj : j < t.length := by simpa using h
      have iht := ih hst j hj
      cases hpa : p a
      · have h0 := hzero hpa
        have hpt : p (t.get ⟨j, hj⟩) = false := by
          cases hv : p (t.get ⟨j, hj⟩)
          · rfl
          · have := hp a (t.get ⟨j, hj⟩) (ha _ (t.get_mem _ _)) hv
            simp [hpa] at this
        simp only [List.get_eq_getElem] at hpt
        simp only [h0]
        simp only [List.get_eq_getElem, List.getElem_cons_succ]
        simp only [Nat.not_lt_zero, iff_false]
        intro hcon
        rw [hpt] at hcon
        exact Bool.false_ne_true hcon
      · rw [List.countP_cons]
        simp only [hpa, if_true]
        simp only [List.get]
        rw [iht]
        omega

theorem lowerBoundLoop_eq_countP (l : List ℚ) (v : ℚ) (hs : l.Sorted (· ≤ ·)) :
    ∀ (fuel low high : ℕ), high - low ≤ fuel →
      low ≤ l.countP (fun x => decide (x < v)) →
      l.countP (fun x => decide (x < v)) ≤ high → high ≤ l.length →
      lowerBoundLoop l v low high = l.countP (fun x => decide (x < v)) := by
  have hp : ∀ x y : ℚ, x ≤ y → decide (y < v) = true → decide (x < v) = true :=
    fun x y hxy hy => decide_eq_true (lt_of_le_of_lt hxy (of_decide_eq_true hy))
  intro fuel
  induction fuel with
  | zero =>
    intro low high hfuel hlo hhi hlen
    rw [lowerBoundLoop]
    have hnl : ¬ low < high := by omega
    simp only [hnl, if_false]
    omega
  | succ f ih =>
    intro low high hfuel hlo hhi hlen
    rw [lowerBoundLoop]
    by_cases hlh : low < high
    · simp only [hlh, if_true]
      have hmidlt : (low + high) / 2 < l.length := by omega
      rw [List.get?_eq_get hmidlt]
      have hchar := sorted_countP_get (fun x => decide (x < v)) hp l hs ((low + high) / 2) hmidlt
      by_cases hx : l.get ⟨(low + high) / 2, hmidlt⟩ < v
      · have hdec : decide (l.get ⟨(low + high) / 2, hmidlt⟩ < v) = true := decide_eq_true hx
        simp only [hdec, if_true]
        have hmid : (low + high) / 2 < l.countP (fun x => decide (x < v)) := hchar.mp hdec
        exact ih ((low + high) / 2 + 1) high (by omega) (by omega) hhi hlen
      · have hdec : decide (l.get ⟨(low + high) / 2, hmidlt⟩ < v) = false :=
          decide_eq_false hx
        simp only [hdec, if_false]
        have hmid : ¬ (low + high) / 2 < l.countP (fun x => decide (x < v)) := by
          intro hcon
          exact hx (of_decide_eq_true (hchar.mpr hcon))
        exact ih low ((low + high) / 2) (by omega) hlo (by omega) (by omega)
    · simp only [hlh, if_false]
      omega


theorem upperBoundLoop_eq_countP (l : List ℚ) (v : ℚ) (hs : l.Sorted (· ≤ ·)) :
    ∀ (fuel low high : ℕ), high - low ≤ fuel →
      low ≤ l.countP (fun x => decide (x ≤ v)) →
      l.countP (fun x => decide (x ≤ v)) ≤ high → high ≤ l.length →
      upperBoundLoop l v low high = l.countP (fun x => decide (x ≤ v)) := by
  have hp : ∀ x y : ℚ, x ≤ y → decide (y ≤ v) = true → decide (x ≤ v) = true :=
    fun x y hxy hy => decide_eq_true (le_trans hxy (of_decide_eq_true hy))
  intro fuel
  induction fuel with
  | zero =>
    intro low high hfuel hlo hhi hlen
    rw [upperBoundLoop]
    have hnl : ¬ low < high := by omega
    simp only [hnl, if_false]
    omega
  | succ f ih =>
    intro low high hfuel hlo hhi hlen
    rw [upperBoundLoop]
    by_cases hlh : low < high
    · simp only [hlh, if_true]
      have hmidlt : (low + high) / 2 < l.length := by omega
      rw [List.get?_eq_get hmidlt]
      have hchar := sorted_countP_get (fun x => decide (x ≤ v)) hp l hs ((low + high) / 2) hmidlt
      by_cases hx : l.get ⟨(low + high) / 2, hmidlt⟩ ≤ v
      · have hdec : decide (l.get ⟨(low + high) / 2, hmidlt⟩ ≤ v) = true := decide_eq_true hx
        simp only [hdec, if_true]
        have hmid : (low + high) / 2 < l.countP (fun x => decide (x ≤ v)) := hchar.mp hdec
        exact ih ((low + high) / 2 + 1) high (by omega) (by omega) hhi hlen
      · have hdec : decide (l.get ⟨(low + high) / 2, hmidlt⟩ ≤ v) = false :=
          decide_eq_false hx
        simp only [hdec, if_false]
        have hmid : ¬ (low + high) / 2 < l.countP (fun x => decide (x ≤ v)) := by
          intro hcon
          exact hx (of_decide_eq_true (hchar.mpr hcon))
        exact ih low ((low + high) / 2) (by omega) hlo (by omega) (by omega)
    · simp only [hlh, if_false]
      omega

theorem lowerBound_eq_countP (l : List ℚ) (v : ℚ) (hs : l.Sorted (· ≤ ·)) :
    lowerBound l v = l.countP (fun x => decide (x < v)) :=
  lowerBoundLoop_eq_countP l v hs l.length 0 l.length (by omega) (by omega)
    (List.countP_le_length _) le_rfl

theorem upperBound_eq_countP (l : List ℚ) (v : ℚ) (hs : l.Sorted (· ≤ ·)) :
    upperBound l v = l.countP (fun x => decide (x ≤ v)) :=
  upperBoundLoop_eq_countP l v hs l.length 0 l.length (by omega) (by omega)
    (List.countP_le_length _) le_rfl

theorem countP_lt_le_countP_le (l : List ℚ) (v : ℚ) :
    l.countP (fun x => decide (x < v)) ≤ l.countP (fun x => decide (x ≤ v)) :=
  List.countP_mono_left fun _ _ hx => decide_eq_true (le_of_lt (of_decide_eq_true hx))

theorem normalize_eq_midrank (env : DataEnv) (metric : Metric) (value : ℚ)
    (hs : (env.dists metric).Sorted (· ≤ ·)) :
    normalizePlayerMetricGlobally env metric value =
      midrankPercentile value (env.dists metric) := by
  have hlow := lowerBound_eq_countP (env.dists metric) value hs
  have hup := upperBound_eq_countP (env.dists metric) value hs
  have hLU := countP_lt_le_countP_le (env.dists metric) value
  simp only [normalizePlayerMetricGlobally, midrankPercentile, hlow, hup]
  by_cases h0 : (env.dists metric).length = 0
  · simp [h0]
  by_cases h1 : (env.dists metric).length = 1
  · simp [h0, h1]
  have hn : 2 ≤ (env.dists metric).length := by
    cases hl : (env.dists metric).length with
    | zero => exact absurd hl h0
    | succ m => cases m with
      | zero => exact absurd hl h1
      | succ k => omega
  have hn1 : (1 : ℚ) ≤ ((env.dists metric).length : ℚ) - 1 := by
    have : ((2 : ℕ) : ℚ) ≤ ((env.dists metric).length : ℚ) := by exact_mod_cast hn
    push_cast at this ⊢
    linarith
  simp only [h0, h1, if_false, or_self, or_false, false_or]
  by_cases hu : (env.dists metric).countP (fun x => decide (x ≤ value)) ≤ 0
  · have hu0 : (env.dists metric).countP (fun x => decide (x ≤ value)) = 0 := by omega
    have hl0 : (env.dists metric).countP (fun x => decide (x < value)) = 0 := by omega
    simp only [hu, if_true, hu0, hl0]
    have hc1 : clamp ((0 : ℕ) : ℚ) 0 (((env.dists metric).length : ℚ) - 1) = 0 := by
      simp [clamp]
    have hc2 : clamp (((0 : ℕ) : ℚ) - 1) 0 (((env.dists metric).length : ℚ) - 1) = 0 := by
      simp [clamp]
    rw [hc1, hc2]
    norm_num
  · simp only [hu, if_false]


theorem half_div_mul_hundred_mono {s1 s2 c : ℚ} (h : s1 ≤ s2) (hc : 0 < c) :
    s1 / 2 / c * 100 ≤ s2 / 2 / c * 100 := by
  have h2 : s1 / 2 ≤ s2 / 2 := by linarith
  have h3 : s1 / 2 / c ≤ s2 / 2 / c := (div_le_div_iff_of_pos_right hc).mpr h2
  exact mul_le_mul_of_nonneg_right h3 (by norm_num)

/-- Counterexample to C3 as stated: for the sorted two-sample population
[0, 2] and query value 1 (strictly between the samples), the code returns 50
while the spec's literal formula "midpoint of count(< V) and count(≤ V),
divided by size − 1, scaled to [0, 100]" gives (1+1)/2 / 1 × 100 = 100. -/
theorem normalize_midpoint_claim_cex :
    (twoSampleDataEnv.dists Metric.bpm).Sorted (· ≤ ·) ∧
    2 ≤ (twoSampleDataEnv.dists Metric.bpm).length ∧
    normalizePlayerMetricGlobally twoSampleDataEnv Metric.bpm 1 = 50 ∧
    specMidpointPercentile 1 (twoSampleDataEnv.dists Metric.bpm) = 100 ∧
    normalizePlayerMetricGlobally twoSampleDataEnv Metric.bpm 1 ≠
      specMidpointPercentile 1 (twoSampleDataEnv.dists Metric.bpm) := by
  have hsorted : (twoSampleDataEnv.dists Metric.bpm).Sorted (· ≤ ·) := by
    norm_num [twoSampleDataEnv, List.sorted_cons]
  have heval : normalizePlayerMetricGlobally twoSampleDataEnv Metric.bpm 1 = 50 := by
    rw [normalize_eq_midrank twoSampleDataEnv Metric.bpm 1 hsorted]
    norm_num [midrankPercentile, twoSampleDataEnv, List.countP_cons, clamp, min_def, max_def]
  have hspec : specMidpointPercentile 1 (twoSampleDataEnv.dists Metric.bpm) = 100 := by
    norm_num [specMidpointPercentile, twoSampleDataEnv, List.countP_cons]
  refine ⟨hsorted, by norm_num [twoSampleDataEnv], heval, hspec, ?_⟩
  rw [heval, hspec]
  norm_num

/-- C3 (amended): for every metric and query value over a sorted stored
population, `normalizePlayerMetricGlobally` returns 50 when the population has
size 0 or 1, and otherwise the midpoint between the count of values strictly
below V clamped to [0, size − 1] and one less than the count of values ≤ V
clamped to [0, size − 1], divided by size − 1 and scaled to [0, 100]
(`midrankPercentile`; the code's early 0 return for values below the whole
population coincides with this formula). -/
theorem normalizePlayerMetricGlobally_midrank (env : DataEnv) (metric : Metric)
    (value : ℚ) (hs : (env.dists metric).Sorted (· ≤ ·)) :
    normalizePlayerMetricGlobally env metric value =
      midrankPercentile value (env.dists metric) :=
  normalize_eq_midrank env metric value hs

/-- Witness for the amended C3 at the concrete two-sample population. -/
theorem normalizePlayerMetricGlobally_midrank_witness :
    normalizePlayerMetricGlobally twoSampleDataEnv Metric.bpm 1 =
      midrankPercentile 1 (twoSampleDataEnv.dists Metric.bpm) :=
  normalizePlayerMetricGlobally_midrank twoSampleDataEnv Metric.bpm 1
    (by norm_num [twoSampleDataEnv, List.sorted_cons])

/-- C9: for a fixed sorted population and query values a < b, the percentile
returned for a is at most the percentile returned for b. -/
theorem normalize_percentile_monotone (env : DataEnv) (metric : Metric) {a b : ℚ}
    (hs : (env.dists metric).Sorted (· ≤ ·)) (hab : a < b) :
    normalizePlayerMetricGlobally env metric a ≤
      normalizePlayerMetricGlobally env metric b := by
  rw [normalize_eq_midrank env metric a hs, normalize_eq_midrank env metric b hs]
  unfold midrankPercentile
  by_cases hdeg : (env.dists metric).length = 0 ∨ (env.dists metric).length = 1
  · have hdeg2 : env.dists metric = [] ∨ (env.dists metric).length = 1 := by
      rcases hdeg with h0 | h1
      · exact Or.inl (List.length_eq_zero.mp h0)
      · exact Or.inr h1
    simp [hdeg2]
  · simp only [hdeg, if_false]
    have hn : 2 ≤ (env.dists metric).length := by
      rcases Nat.lt_or_ge (env.dists metric).length 2 with hlt | hge
      · interval_cases h : (env.dists metric).length <;> simp_all
      · exact hge
    have hpos : (0 : ℚ) < ((env.dists metric).length : ℚ) - 1 := by
      have : ((2 : ℕ) : ℚ) ≤ ((env.dists metric).length : ℚ) := by exact_mod_cast hn
      push_cast at this
      linarith
    have hL : (env.dists metric).countP (fun x => decide (x < a)) ≤
        (env.dists metric).countP (fun x => decide (x < b)) :=
      List.countP_mono_left fun _ _ hx =>
        decide_eq_true (lt_trans (of_decide_eq_true hx) hab)
    have hU : (env.dists metric).countP (fun x => decide (x ≤ a)) ≤
        (env.dists metric).countP (fun x => decide (x ≤ b)) :=
      List.countP_mono_left fun _ _ hx =>
        decide_eq_true (le_trans (of_decide_eq_true hx) (le_of_lt hab))
    have hLq : (((env.dists metric).countP (fun x => decide (x < a)) : ℕ) : ℚ) ≤
        (((env.dists metric).countP (fun x => decide (x < b)) : ℕ) : ℚ) := by
      exact_mod_cast hL
    have hUq : (((env.dists metric).countP (fun x => decide (x ≤ a)) : ℕ) : ℚ) ≤
        (((env.dists metric).countP (fun x => decide (x ≤ b)) : ℕ) : ℚ) := by
      exact_mod_cast hU
    have hsum :
        clamp (((env.dists metric).countP (fun x => decide (x < a)) : ℚ)) 0
            (((env.dists metric).length : ℚ) - 1) +
          clamp ((((env.dists metric).countP (fun x => decide (x ≤ a)) : ℚ)) - 1) 0
            (((env.dists metric).length : ℚ) - 1) ≤
        clamp (((env.dists metric).countP (fun x => decide (x < b)) : ℚ)) 0
            (((env.dists metric).length : ℚ) - 1) +
          clamp ((((env.dists metric).countP (fun x => decide (x ≤ b)) : ℚ)) - 1) 0
            (((env.dists metric).length : ℚ) - 1) :=
      add_le_add (clamp_mono_value _ _ hLq) (clamp_mono_value _ _ (by linarith))
    exact half_div_mul_hundred_mono hsum hpos

/-- Witness for C9 at the concrete two-sample population. -/
theorem normalize_percentile_monotone_witness :
    normalizePlayerMetricGlobally twoSampleDataEnv Metric.bpm 1 ≤
      normalizePlayerMetricGlobally twoSampleDataEnv Metric.bpm 2 :=
  normalize_percentile_monotone twoSampleDataEnv Metric.bpm
    (by norm_num [twoSampleDataEnv, List.sorted_cons]) (by norm_num)


/-! ### C7: fifteen roster entries, each with an eligible slot -/

/-- C7: for every franchise in the team list whose seed holds at least 15
candidates (the data-model invariant the generated seed file guarantees),
`getRosterByTeam` returns exactly 15 entries, each with a non-empty list of
eligible slots drawn from `LineupSlot` = {PG, SG, SF, PF, C}. -/
theorem getRosterByTeam_top15 (se : SeedEnv) (teamAbbr : String)
    (hteam : se.teams.any (fun team => team.abbr == teamAbbr) = true)
    (hseed : 15 ≤ (se.seed teamAbbr).length) :
    (getRosterByTeam se teamAbbr).length = 15 ∧
    ∀ player ∈ getRosterByTeam se teamAbbr, player.eligibleSlots ≠ [] := by
  have hroster : rosterByTeamOf se teamAbbr = teamRoster (se.seed teamAbbr) := by
    simp [rosterByTeamOf, hteam]
  constructor
  · simp only [getRosterByTeam, hroster, teamRoster, List.length_map, List.length_take,
      List.length_mergeSort, List.length_mapIdx]
    omega
  · intro player hmem
    simp only [getRosterByTeam, hroster] at hmem
    obtain ⟨fp, hfp, rfl⟩ := List.mem_map.mp hmem
    simp only [teamRoster] at hfp
    have hfp2 : fp ∈ (se.seed teamAbbr).mapIdx
        (fun rankIndex seedPlayer => normalizedSeedPlayer seedPlayer rankIndex) :=
      List.mem_mergeSort.mp (List.mem_of_mem_take hfp)
    rw [List.mapIdx_eq_enum_map] at hfp2
    obtain ⟨p, hp, rfl⟩ := List.mem_map.mp hfp2
    simp only [Function.uncurry, normalizedSeedPlayer]
    split_ifs with hpos
    · simpa [← List.length_pos] using hpos
    · simp [LINEUP_SLOTS]

/-- Witness for C7 at a concrete one-team seed with 15 candidates. -/
theorem getRosterByTeam_top15_witness :
    (getRosterByTeam fifteenSeedEnv "ATL").length = 15 :=
  (getRosterByTeam_top15 fifteenSeedEnv "ATL" (by decide) (by decide)).1

end AllTimeDraft
